import Mathlib

/-!
# jpy_module.c: the bridge facade of jpy

A shallow embedding of `src/main/c/jpy_module.c`.

* Pointers are `Option`s: `none` is `NULL`.
* The process-wide globals (`JVM`, the primitive-type singletons, the cached
  class and method handles) are the fields of `JPy_State`.
* Everything the file calls but does not define (the JNI function table, the
  functions of `jpy_jtype.c` and `jpy_jobj.c`, the host allocator) is a field of
  `World`. The calls into the foreign runtime, into `jpy_jtype.c` and
  `jpy_jobj.c`, and the reference-count macros are recorded, in order, in the
  call trace of the function that makes them.
* Undefined behaviour of C that has no value to go on with (dereferencing
  `NULL`, loading from outside a buffer) is the `Except.error` outcome of type
  `Fault`. A store behind the end of a heap block is kept in the block's record
  (`WBuf`), whose cells then outnumber its size.
-/

namespace JPy

/-! ## Values -/

/-- Content of a C string, a `jchar` buffer or a `wchar_t` buffer: the code
units in order, the terminator excluded. -/
abbrev Chars := List Nat

/-- The code units of a string literal of the source. -/
def cstr (s : String) : Chars := s.toList.map Char.toNat

/-- A non-null handle of the foreign runtime (`jobject`, `jclass`, `jarray`,
`jmethodID`, `JavaVM*`, `JNIEnv*`). -/
abbrev JRef := Nat

/-- The fields of `JPy_JType` that `jpy_module.c` reads or writes. -/
structure JPy_JType where
  classRef : JRef
  isResolved : Bool
deriving DecidableEq, Repr

/-- A proxy (`JPy_JObj`): its host type, which is a `JPy_JType`, and the
foreign reference it holds. -/
structure JPy_JObj where
  type : JPy_JType
  objectRef : JRef
deriving DecidableEq, Repr

/-- Host objects as far as the facade can tell them apart. A string is kept as
its characters, one code point each. An item of a list is kept as the UTF-8
content `PyUnicode_AsUTF8` yields for it, `none` for an item that has none. -/
inductive PyObject where
  | None
  | Bool (b : Bool)
  | Long (n : Int)
  | Unicode (w : Chars)
  | List (items : List (Option Chars))
  | JObj (o : JPy_JObj)
  | JType (t : JPy_JType)
  | Other (tag : Nat)
deriving DecidableEq, Repr

/-- The host error indicator. `ArgumentError` stands for whatever
`PyArg_ParseTuple` and `PyArg_ParseTupleAndKeywords` raise on arguments that do
not fit the format, `TypeError` for what `PyUnicode_AsUTF8` and
`PyUnicode_AsWideCharString` raise for an object they cannot convert. -/
inductive PyErr where
  | RuntimeError (msg : String)
  | ValueError (msg : String)
  | MemoryError
  | TypeError
  | ArgumentError
  | NoActiveSession
  | Raised (code : Nat)
deriving DecidableEq, Repr

/-- Undefined behaviour reached by the C code. -/
inductive Fault where
  | nullDeref (what : String)
  | outOfBoundsRead
deriving DecidableEq, Repr

/-- Calls that leave `jpy_module.c`, in the order they are made. -/
inductive Event where
  | JNI_CreateJavaVM (options : List Chars)
  | DestroyJavaVM (jvm : JRef)
  | GetEnv (jvm : JRef)
  | FindClass (name : Chars)
  | GetMethodID (cls : Option JRef) (name sig : Chars)
  | GetStaticFieldID (cls : Option JRef) (name sig : Chars)
  | GetStaticObjectField (cls : Option JRef) (fid : Option JRef)
  | NewBooleanArray (length : Int)
  | NewByteArray (length : Int)
  | NewCharArray (length : Int)
  | NewShortArray (length : Int)
  | NewIntArray (length : Int)
  | NewLongArray (length : Int)
  | NewFloatArray (length : Int)
  | NewDoubleArray (length : Int)
  | NewObjectArray (length : Int) (cls : JRef)
  | GetObjectClass (ref : JRef)
  | IsInstanceOf (ref cls : JRef)
  | NewString (chars : Chars)
  | GetStringLength (s : Chars)
  | GetStringChars (s : Chars)
  | ReleaseStringChars (s : Chars)
  | JType_GetTypeForName (name : Chars) (resolve : Bool)
  | JType_GetType (cls : Option JRef) (resolve : Bool)
  | JObj_FromType (type : JPy_JType) (ref : JRef)
  | Py_INCREF (t : JPy_JType)
  | Py_DECREF (t : JPy_JType)
deriving DecidableEq, Repr

/-- What `jpy_module.c` calls and does not define: the JNI function table, the
invocation interface, `JType_GetTypeForName` and `JType_GetType` of
`jpy_jtype.c`, `JObj_FromType` of `jpy_jobj.c`, and the host allocator
(`PyMem_New n` tells whether an allocation of `n` elements succeeds). A
function of `jpy_jtype.c` or `jpy_jobj.c` that returns `NULL` has set the error
it is given with. -/
structure World where
  JNI_CreateJavaVM : List Chars → Int × Option JRef × Option JRef
  GetEnv : JRef → Option JRef
  FindClass : Chars → Option JRef
  GetMethodID : Option JRef → Chars → Chars → Option JRef
  GetStaticFieldID : Option JRef → Chars → Chars → Option JRef
  GetStaticObjectField : Option JRef → Option JRef → Option JRef
  NewBooleanArray : Int → Option JRef
  NewByteArray : Int → Option JRef
  NewCharArray : Int → Option JRef
  NewShortArray : Int → Option JRef
  NewIntArray : Int → Option JRef
  NewLongArray : Int → Option JRef
  NewFloatArray : Int → Option JRef
  NewDoubleArray : Int → Option JRef
  NewObjectArray : Int → JRef → Option JRef
  GetObjectClass : JRef → JRef
  IsInstanceOf : JRef → JRef → Bool
  NewString : Chars → Bool
  JType_GetTypeForName : Chars → Bool → Except PyErr JPy_JType
  JType_GetType : Option JRef → Bool → Except PyErr JPy_JType
  JObj_FromType : JPy_JType → JRef → Except PyErr JPy_JObj
  PyMem_New : Nat → Bool

/-! ## Global state -/

/-- The C struct `JPy_JVM`. -/
structure JPy_JVM where
  jvm : Option JRef
  jenv : Option JRef
  DEBUG : Int
deriving DecidableEq, Repr

/-- The cached class and method handles ("Global VM Information"). -/
structure VMInfo where
  JPy_Comparable_JClass : Option JRef
  JPy_Object_JClass : Option JRef
  JPy_Object_ToString_MID : Option JRef
  JPy_Object_HashCode_MID : Option JRef
  JPy_Object_Equals_MID : Option JRef
  JPy_Class_JClass : Option JRef
  JPy_Class_GetName_MID : Option JRef
  JPy_Class_GetDeclaredConstructors_MID : Option JRef
  JPy_Class_GetDeclaredFields_MID : Option JRef
  JPy_Class_GetDeclaredMethods_MID : Option JRef
  JPy_Class_GetComponentType_MID : Option JRef
  JPy_Class_IsPrimitive_MID : Option JRef
  JPy_Constructor_JClass : Option JRef
  JPy_Constructor_GetModifiers_MID : Option JRef
  JPy_Constructor_GetParameterTypes_MID : Option JRef
  JPy_Method_JClass : Option JRef
  JPy_Method_GetName_MID : Option JRef
  JPy_Method_GetReturnType_MID : Option JRef
  JPy_Method_GetParameterTypes_MID : Option JRef
  JPy_Method_GetModifiers_MID : Option JRef
  JPy_Field_JClass : Option JRef
  JPy_Field_GetName_MID : Option JRef
  JPy_Field_GetModifiers_MID : Option JRef
  JPy_Field_GetType_MID : Option JRef
deriving DecidableEq, Repr

/-- All mutable globals of `jpy_module.c` that its functions touch. -/
structure JPy_State where
  JVM : JPy_JVM
  JPy_JBoolean : Option JPy_JType
  JPy_JByte : Option JPy_JType
  JPy_JShort : Option JPy_JType
  JPy_JInt : Option JPy_JType
  JPy_JLong : Option JPy_JType
  JPy_JFloat : Option JPy_JType
  JPy_JDouble : Option JPy_JType
  JPy_JChar : Option JPy_JType
  JPy_JVoid : Option JPy_JType
  JPy_JString : Option JPy_JType
  vm : VMInfo
deriving DecidableEq, Repr

/-- The initialisers of the "Global VM Information" block: all `NULL`. -/
def VMInfo.init : VMInfo :=
  ⟨none, none, none, none, none, none, none, none, none, none, none, none,
   none, none, none, none, none, none, none, none, none, none, none, none⟩

/-- The state right after the module is loaded: `JVM = {NULL, NULL, 0}` and
every singleton `NULL`. -/
def JPy_State.init : JPy_State :=
  { JVM := ⟨none, none, 0⟩
    JPy_JBoolean := none, JPy_JByte := none, JPy_JShort := none, JPy_JInt := none
    JPy_JLong := none, JPy_JFloat := none, JPy_JDouble := none, JPy_JChar := none
    JPy_JVoid := none, JPy_JString := none
    vm := VMInfo.init }

/-- What a facade function hands back to the interpreter: the returned object
(`none` is `NULL`), the error indicator, and the calls it made. -/
structure Ret where
  value : Option PyObject
  err : Option PyErr
  trace : List Event
deriving DecidableEq, Repr

/-- The C function `JPy_GetJNIEnv`. -/
def JPy_GetJNIEnv (s : JPy_State) : Option JRef := s.JVM.jenv

/-- The C function `JPy_IsDebug`. -/
def JPy_IsDebug (s : JPy_State) : Int := s.JVM.DEBUG

/-- Modelled from the spec: the macro `JPy_GET_JNI_ENV_OR_RETURN` of
`jpy_module.h`, which is not in src. It binds `jenv` to `JPy_GetJNIEnv()`; when
that is `NULL` the caller returns its failure value and, in the words of the
spec, the call "fails with NoActiveSession rather than crashing". -/
def JPy_GET_JNI_ENV_OR_RETURN (s : JPy_State) : Except PyErr JRef :=
  match JPy_GetJNIEnv s with
  | none => .error .NoActiveSession
  | some jenv => .ok jenv

/-! ## Argument parsing (CPython) -/

/-- The range of a C `int`. -/
def fitsInt (n : Int) : Prop := -2147483648 ≤ n ∧ n ≤ 2147483647

instance (n : Int) : Decidable (fitsInt n) := by unfold fitsInt; infer_instance

/-- Format unit `O`: any object. `PyArg_ParseTuple(args, "OO:cast", ...)`
succeeds exactly on a tuple of two objects. -/
def PyArg_ParseTuple_OO (args : List PyObject) : Option (PyObject × PyObject) :=
  match args with
  | [obj, objType] => some (obj, objType)
  | _ => none

/-- The UTF-8 bytes of one character; `none` for a surrogate (`U+D800` to
`U+DFFF`), which the codec refuses, and for a number that is no code point. -/
def utf8EncodeChar (c : Nat) : Option Chars :=
  if c < 128 then some [c]
  else if c < 2048 then some [192 + c / 64, 128 + c % 64]
  else if c < 65536 then
    if 55296 ≤ c ∧ c ≤ 57343 then none
    else some [224 + c / 4096, 128 + c / 64 % 64, 128 + c % 64]
  else if c < 1114112 then
    some [240 + c / 262144, 128 + c / 4096 % 64, 128 + c / 64 % 64, 128 + c % 64]
  else none

/-- The call `PyUnicode_AsUTF8` on a string: its UTF-8 bytes, `none` when a
character cannot be encoded (`UnicodeEncodeError`). -/
def PyUnicode_AsUTF8 : Chars → Option Chars
  | [] => some []
  | c :: cs =>
    match utf8EncodeChar c, PyUnicode_AsUTF8 cs with
    | some b, some bs => some (b ++ bs)
    | _, _ => none

/-- Format unit `s`: the UTF-8 encoding of a string, as a C string. It fails on
an object that is no string, on a string that cannot be encoded and on one with
an embedded null character. -/
def PyArg_s (o : PyObject) : Option Chars :=
  match o with
  | .Unicode w =>
    match PyUnicode_AsUTF8 w with
    | some name => if 0 ∈ name then none else some name
    | none => none
  | _ => none

/-- Format unit `i`: an integer that fits a C `int`. -/
def PyArg_i (o : PyObject) : Option Int :=
  match o with
  | .Long n => if fitsInt n then some n else none
  | .Bool b => some (if b then 1 else 0)
  | _ => none

/-- Format unit `p`: the truth value of any object. -/
def PyArg_p (o : PyObject) : Int :=
  match o with
  | .None => 0
  | .Bool b => if b then 1 else 0
  | .Long n => if n = 0 then 0 else 1
  | .Unicode w => if w = [] then 0 else 1
  | .List items => if items = [] then 0 else 1
  | _ => 1

/-- The call `PyArg_ParseTuple(args, "si:array", &name, &length)`. -/
def PyArg_ParseTuple_si (args : List PyObject) : Option (Chars × Int) :=
  match args with
  | [a, b] =>
    match PyArg_s a, PyArg_i b with
    | some name, some length => some (name, length)
    | _, _ => none
  | _ => none

/-- Binding of positional and keyword arguments to two parameter names, the
first required, the second optional, as `PyArg_ParseTupleAndKeywords` does for
the formats `O|p` and `s|p`: `none` when an argument is left over, a keyword is
unknown or given twice, a parameter is given both ways, or the first is
missing. -/
def bindArgs (k1 k2 : Chars) (args : List PyObject) (kwds : List (Chars × PyObject)) :
    Option (PyObject × Option PyObject) :=
  if ¬ (kwds.map Prod.fst).Nodup then none
  else if ¬ ∀ k ∈ kwds.map Prod.fst, k = k1 ∨ k = k2 then none
  else
    match args with
    | [] =>
      match kwds.lookup k1 with
      | some a => some (a, kwds.lookup k2)
      | none => none
    | [a] => if (kwds.lookup k1).isSome then none else some (a, kwds.lookup k2)
    | [a, b] => if kwds = [] then some (a, some b) else none
    | _ => none

/-! ## The facade: `get_class`, `cast`, `array` -/

/-- Modelled from the spec: the macro `JObj_Check` of `jpy_jobj.h`, which is not
in src. It tells whether the host object "is not a proxy"; behind it the code
reads the object as a `JPy_JObj`. -/
def JObj_Check (o : PyObject) : Option JPy_JObj :=
  match o with
  | .JObj p => some p
  | _ => none

/-- Modelled from the spec: the macro `JType_Check` of `jpy_jtype.h`, which is
not in src. It tells whether the host object is a type descriptor ("a Java type
object" in the message of `JPy_cast`); behind it the code reads the object as a
`JPy_JType`. It is a test of what kind of object it is given, so the flag
`isResolved` of the descriptor plays no part in it. -/
def JType_Check (o : PyObject) : Option JPy_JType :=
  match o with
  | .JType t => some t
  | _ => none

/-- The C function `JPy_get_class`. -/
def JPy_get_class (x : World) (s : JPy_State) (args : List PyObject)
    (kwds : List (Chars × PyObject)) : Ret :=
  match JPy_GET_JNI_ENV_OR_RETURN s with
  | .error e => ⟨none, some e, []⟩
  | .ok _ =>
    match bindArgs (cstr "name") (cstr "resolve") args kwds with
    | none => ⟨none, some .ArgumentError, []⟩
    | some (a, r) =>
      match PyArg_s a with
      | none => ⟨none, some .ArgumentError, []⟩
      | some className =>
        let resolve : Int := match r with
          | none => 1
          | some o => PyArg_p o
        let ev := [Event.JType_GetTypeForName className (decide (resolve ≠ 0))]
        match x.JType_GetTypeForName className (decide (resolve ≠ 0)) with
        | .ok t => ⟨some (.JType t), none, ev⟩
        | .error e => ⟨none, some e, ev⟩

/-- The C function `JPy_cast`. -/
def JPy_cast (x : World) (s : JPy_State) (args : List PyObject) : Ret :=
  match JPy_GET_JNI_ENV_OR_RETURN s with
  | .error e => ⟨none, some e, []⟩
  | .ok _ =>
    match PyArg_ParseTuple_OO args with
    | none => ⟨none, some .ArgumentError, []⟩
    | some (obj, objType) =>
      if obj = .None then ⟨some .None, none, []⟩
      else
        match JObj_Check obj with
        | none => ⟨none, some (.ValueError "argument 1 (obj) must be a Java object"), []⟩
        | some p =>
          match JType_Check objType with
          | none =>
            ⟨none, some (.ValueError "argument 2 (obj_type) must be a Java type object"), []⟩
          | some t =>
            let inst := x.IsInstanceOf p.objectRef t.classRef
            if inst then
              match x.JObj_FromType t p.objectRef with
              | .ok q =>
                ⟨some (.JObj q), none,
                  [.IsInstanceOf p.objectRef t.classRef, .JObj_FromType t p.objectRef]⟩
              | .error e =>
                ⟨none, some e,
                  [.IsInstanceOf p.objectRef t.classRef, .JObj_FromType t p.objectRef]⟩
            else ⟨some .None, none, [.IsInstanceOf p.objectRef t.classRef]⟩

/-- The `strcmp` chain of `JPy_array`: the array reference the chosen
constructor gives (`.ok none` is a `NULL` array, `.error` a failed type lookup)
and the calls made. -/
def JPy_array_new (x : World) (name : Chars) (length : Int) :
    Except PyErr (Option JRef) × List Event :=
  if name = cstr "boolean" then (.ok (x.NewBooleanArray length), [.NewBooleanArray length])
  else if name = cstr "byte" then (.ok (x.NewByteArray length), [.NewByteArray length])
  else if name = cstr "char" then (.ok (x.NewCharArray length), [.NewCharArray length])
  else if name = cstr "short" then (.ok (x.NewShortArray length), [.NewShortArray length])
  else if name = cstr "int" then (.ok (x.NewIntArray length), [.NewIntArray length])
  else if name = cstr "long" then (.ok (x.NewLongArray length), [.NewLongArray length])
  else if name = cstr "float" then (.ok (x.NewFloatArray length), [.NewFloatArray length])
  else if name = cstr "double" then (.ok (x.NewDoubleArray length), [.NewDoubleArray length])
  else
    match x.JType_GetTypeForName name false with
    | .error e => (.error e, [.JType_GetTypeForName name false])
    | .ok type =>
      (.ok (x.NewObjectArray length type.classRef),
        [.JType_GetTypeForName name false, .NewObjectArray length type.classRef])

/-- The end of `JPy_array`, from `GetObjectClass` on: the proxy over the array
`arrayRef`, typed by the class of the array. `err` is the error indicator and
`tr` the calls made before. -/
def JPy_array_proxy (x : World) (err : Option PyErr) (tr : List Event) (arrayRef : JRef) : Ret :=
  let classRef := x.GetObjectClass arrayRef
  match x.JType_GetType (some classRef) false with
  | .error e =>
    ⟨none, some e, tr ++ [.GetObjectClass arrayRef, .JType_GetType (some classRef) false]⟩
  | .ok type =>
    match x.JObj_FromType type arrayRef with
    | .ok q =>
      ⟨some (.JObj q), err,
        tr ++ [.GetObjectClass arrayRef, .JType_GetType (some classRef) false,
          .JObj_FromType type arrayRef]⟩
    | .error e =>
      ⟨none, some e,
        tr ++ [.GetObjectClass arrayRef, .JType_GetType (some classRef) false,
          .JObj_FromType type arrayRef]⟩

/-- The C function `JPy_array`. The error set for a negative length stays in
the indicator while the function goes on: there is no `return` in that branch. -/
def JPy_array (x : World) (s : JPy_State) (args : List PyObject) : Ret :=
  match JPy_GET_JNI_ENV_OR_RETURN s with
  | .error e => ⟨none, some e, []⟩
  | .ok _ =>
    match PyArg_ParseTuple_si args with
    | none => ⟨none, some .ArgumentError, []⟩
    | some (name, length) =>
      let err : Option PyErr :=
        if length < 0 then some (.ValueError "negative array length") else none
      match JPy_array_new x name length with
      | (.error e, tr) => ⟨none, some e, tr⟩
      | (.ok none, tr) => ⟨none, some .MemoryError, tr⟩
      | (.ok (some arrayRef), tr) => JPy_array_proxy x err tr arrayRef

/-! ## Session set-up and teardown -/

/-- The C function `JNI_OnLoad`, which the foreign runtime calls when it loads the
module: `JVM.jvm` is set to the runtime and `JVM.jenv` to what `GetEnv` stores
(`NULL` when it fails). Nothing else is written; `JPy_InitGlobalVars` is not
called. -/
def JNI_OnLoad (x : World) (s : JPy_State) (jvm : JRef) : JPy_State × List Event :=
  ({ s with JVM := { s.JVM with jvm := some jvm, jenv := x.GetEnv jvm } }, [.GetEnv jvm])

/-- The C function `JNI_OnUnload`: `JVM.jvm` and `JVM.jenv` are set to `NULL`. -/
def JNI_OnUnload (s : JPy_State) : JPy_State :=
  { s with JVM := { s.JVM with jvm := none, jenv := none } }

/-- The C function `JPy_GetNonObjectJType`. The result of `JType_GetType` is
written through (`->isResolved = JNI_TRUE`) before anything looks at it, so a
`NULL` result is a fault; the function cannot return `NULL`. -/
def JPy_GetNonObjectJType (x : World) (wrapperClassName : Chars) :
    Except Fault (JPy_JType × List Event) :=
  let wrapperClassRef := x.FindClass wrapperClassName
  let fid := x.GetStaticFieldID wrapperClassRef (cstr "TYPE") (cstr "Ljava/lang/Class;")
  let primClassRef := x.GetStaticObjectField wrapperClassRef fid
  let calls : List Event :=
    [.FindClass wrapperClassName,
     .GetStaticFieldID wrapperClassRef (cstr "TYPE") (cstr "Ljava/lang/Class;"),
     .GetStaticObjectField wrapperClassRef fid,
     .JType_GetType primClassRef false]
  match x.JType_GetType primClassRef false with
  | .error _ => .error (.nullDeref "type")
  | .ok type =>
    let type := { type with isResolved := true }
    .ok (type, calls ++ [.Py_INCREF type])

/-- The first block of `JPy_InitGlobalVars`: the class and method handles. No
result is tested. -/
def JPy_InitGlobalVars_handles (x : World) : VMInfo × List Event :=
  let comparable := x.FindClass (cstr "java/lang/Comparable")
  let object := x.FindClass (cstr "java/lang/Object")
  let cls := x.FindClass (cstr "java/lang/Class")
  let ctor := x.FindClass (cstr "java/lang/reflect/Constructor")
  let field := x.FindClass (cstr "java/lang/reflect/Field")
  let method := x.FindClass (cstr "java/lang/reflect/Method")
  let mid (c : Option JRef) (name sig : String) := x.GetMethodID c (cstr name) (cstr sig)
  let ev (c : Option JRef) (name sig : String) := Event.GetMethodID c (cstr name) (cstr sig)
  ({ JPy_Comparable_JClass := comparable
     JPy_Object_JClass := object
     JPy_Object_ToString_MID := mid object "toString" "()Ljava/lang/String;"
     JPy_Object_HashCode_MID := mid object "hashCode" "()I"
     JPy_Object_Equals_MID := mid object "equals" "(Ljava/lang/Object;)Z"
     JPy_Class_JClass := cls
     JPy_Class_GetName_MID := mid cls "getName" "()Ljava/lang/String;"
     JPy_Class_GetDeclaredConstructors_MID :=
       mid cls "getDeclaredConstructors" "()[Ljava/lang/reflect/Constructor;"
     JPy_Class_GetDeclaredMethods_MID :=
       mid cls "getDeclaredMethods" "()[Ljava/lang/reflect/Method;"
     JPy_Class_GetDeclaredFields_MID :=
       mid cls "getDeclaredFields" "()[Ljava/lang/reflect/Field;"
     JPy_Class_GetComponentType_MID := mid cls "getComponentType" "()Ljava/lang/Class;"
     JPy_Class_IsPrimitive_MID := mid cls "isPrimitive" "()Z"
     JPy_Constructor_JClass := ctor
     JPy_Constructor_GetModifiers_MID := mid ctor "getModifiers" "()I"
     JPy_Constructor_GetParameterTypes_MID := mid ctor "getParameterTypes" "()[Ljava/lang/Class;"
     JPy_Field_JClass := field
     JPy_Field_GetName_MID := mid field "getName" "()Ljava/lang/String;"
     JPy_Field_GetModifiers_MID := mid field "getModifiers" "()I"
     JPy_Field_GetType_MID := mid field "getType" "()Ljava/lang/Class;"
     JPy_Method_JClass := method
     JPy_Method_GetName_MID := mid method "getName" "()Ljava/lang/String;"
     JPy_Method_GetModifiers_MID := mid method "getModifiers" "()I"
     JPy_Method_GetParameterTypes_MID := mid method "getParameterTypes" "()[Ljava/lang/Class;"
     JPy_Method_GetReturnType_MID := mid method "getReturnType" "()Ljava/lang/Class;" },
   [.FindClass (cstr "java/lang/Comparable"),
    .FindClass (cstr "java/lang/Object"),
    ev object "toString" "()Ljava/lang/String;",
    ev object "hashCode" "()I",
    ev object "equals" "(Ljava/lang/Object;)Z",
    .FindClass (cstr "java/lang/Class"),
    ev cls "getName" "()Ljava/lang/String;",
    ev cls "getDeclaredConstructors" "()[Ljava/lang/reflect/Constructor;",
    ev cls "getDeclaredMethods" "()[Ljava/lang/reflect/Method;",
    ev cls "getDeclaredFields" "()[Ljava/lang/reflect/Field;",
    ev cls "getComponentType" "()Ljava/lang/Class;",
    ev cls "isPrimitive" "()Z",
    .FindClass (cstr "java/lang/reflect/Constructor"),
    ev ctor "getModifiers" "()I",
    ev ctor "getParameterTypes" "()[Ljava/lang/Class;",
    .FindClass (cstr "java/lang/reflect/Field"),
    ev field "getName" "()Ljava/lang/String;",
    ev field "getModifiers" "()I",
    ev field "getType" "()Ljava/lang/Class;",
    .FindClass (cstr "java/lang/reflect/Method"),
    ev method "getName" "()Ljava/lang/String;",
    ev method "getModifiers" "()I",
    ev method "getParameterTypes" "()[Ljava/lang/Class;",
    ev method "getReturnType" "()Ljava/lang/Class;"])

/-- The C function `JPy_InitGlobalVars`: the returned `int`, the error it left
in the indicator, the globals and the calls. The nine `DEFINE_NON_OBJECT_TYPE`
lines run in the order of the source; the `NULL` test of that macro never fires
because `JPy_GetNonObjectJType` cannot return `NULL`. A fault loses the globals
written so far. -/
def JPy_InitGlobalVars (x : World) (s : JPy_State) :
    Except Fault (Int × Option PyErr × JPy_State × List Event) := do
  let (vm, t0) := JPy_InitGlobalVars_handles x
  let (jBoolean, t1) ← JPy_GetNonObjectJType x (cstr "java/lang/Boolean")
  let (jByte, t2) ← JPy_GetNonObjectJType x (cstr "java/lang/Byte")
  let (jShort, t3) ← JPy_GetNonObjectJType x (cstr "java/lang/Short")
  let (jInt, t4) ← JPy_GetNonObjectJType x (cstr "java/lang/Integer")
  let (jLong, t5) ← JPy_GetNonObjectJType x (cstr "java/lang/Long")
  let (jFloat, t6) ← JPy_GetNonObjectJType x (cstr "java/lang/Float")
  let (jDouble, t7) ← JPy_GetNonObjectJType x (cstr "java/lang/Double")
  let (jChar, t8) ← JPy_GetNonObjectJType x (cstr "java/lang/Character")
  let (jVoid, t9) ← JPy_GetNonObjectJType x (cstr "java/lang/Void")
  let c := x.FindClass (cstr "java/lang/String")
  let tr := t0 ++ t1 ++ t2 ++ t3 ++ t4 ++ t5 ++ t6 ++ t7 ++ t8 ++ t9 ++
    [.FindClass (cstr "java/lang/String"), .JType_GetType c false]
  let s1 : JPy_State :=
    { s with
      vm := vm
      JPy_JBoolean := some jBoolean, JPy_JByte := some jByte, JPy_JShort := some jShort
      JPy_JInt := some jInt, JPy_JLong := some jLong, JPy_JFloat := some jFloat
      JPy_JDouble := some jDouble, JPy_JChar := some jChar, JPy_JVoid := some jVoid }
  match x.JType_GetType c false with
  | .error e => pure (-1, some e, { s1 with JPy_JString := none }, tr)
  | .ok jString => pure (0, none, { s1 with JPy_JString := some jString }, tr)

/-- The calls `PySequence_Check`, `PySequence_Length` and `PySequence_GetItem`
on the options object: the items of a list, the one-character strings of a
string (each kept, like a list item, as its UTF-8 content), `none` for an object
that is no sequence (every other object of the model). On these the length is never `-1` and no item is `NULL`, so the two
branches of `JPy_create_jvm` for those results are never taken. -/
def PySequence_items (o : PyObject) : Option (List (Option Chars)) :=
  match o with
  | .List items => some items
  | .Unicode w => some (w.map fun c => utf8EncodeChar c)
  | _ => none

/-- The options loop of `JPy_create_jvm`: `PyUnicode_AsUTF8` of every item, in
order; `none` at the first item that has no UTF-8 content. -/
def optionStrings : List (Option Chars) → Option (List Chars)
  | [] => some []
  | none :: _ => none
  | some o :: rest => (optionStrings rest).map (o :: ·)

/-- The message `sprintf` builds when `JNI_CreateJavaVM` fails. -/
def createFailedMsg (res : Int) : String :=
  "failed to create JVM: JNI_CreateJavaVM() returned exit code " ++ toString res ++ ". " ++
  "Make sure the JVM shared library (Unix: libjvm.so, Windows: jvm.dll) can be found. " ++
  "Check your 'path' environment variable."

/-- The C function `JPy_create_jvm`. `JNI_CreateJavaVM` gives its result code and
what `JVM.jvm` and `JVM.jenv` hold when it returns. -/
def JPy_create_jvm (x : World) (s : JPy_State) (args : List PyObject)
    (kwds : List (Chars × PyObject)) : Except Fault (Ret × JPy_State) :=
  if s.JVM.jvm ≠ none then
    .ok (⟨none, some (.RuntimeError
      "only a single Java VM can be instantiated (use jpy.destroy_jvm() first)"), []⟩, s)
  else
    let s1 : JPy_State := { s with JVM := { s.JVM with DEBUG := 0 } }
    match bindArgs (cstr "options") (cstr "debug") args kwds with
    | none => .ok (⟨none, some .ArgumentError, []⟩, s1)
    | some (options, dbg) =>
      let s2 : JPy_State :=
        match dbg with
        | none => s1
        | some d => { s1 with JVM := { s1.JVM with DEBUG := PyArg_p d } }
      match PySequence_items options with
      | none => .ok (⟨none, some (.ValueError "list of JVM options expected"), []⟩, s2)
      | some items =>
        if ¬ x.PyMem_New items.length then .ok (⟨none, some .MemoryError, []⟩, s2)
        else
          match optionStrings items with
          | none => .ok (⟨none, some .TypeError, []⟩, s2)
          | some jvmOptions =>
            let (res, jvm, jenv) := x.JNI_CreateJavaVM jvmOptions
            let s3 : JPy_State := { s2 with JVM := { s2.JVM with jvm := jvm, jenv := jenv } }
            if res ≠ 0 then
              .ok (⟨none, some (.ValueError (createFailedMsg res)),
                [.JNI_CreateJavaVM jvmOptions]⟩, s3)
            else
              match JPy_InitGlobalVars x s3 with
              | .error f => .error f
              | .ok (rc, e, s4, tr) =>
                if rc < 0 then .ok (⟨none, e, .JNI_CreateJavaVM jvmOptions :: tr⟩, s4)
                else .ok (⟨some .None, none, .JNI_CreateJavaVM jvmOptions :: tr⟩, s4)

/-- The CPython macro `Py_DECREF`: it writes through its argument, so a `NULL`
argument is a fault (`Py_XDECREF` is the variant that accepts `NULL`). -/
def Py_DECREF (what : String) (o : Option JPy_JType) : Except Fault Event :=
  match o with
  | none => .error (.nullDeref what)
  | some t => .ok (.Py_DECREF t)

/-- The C function `JPy_destroy_jvm`. The arguments are not looked at. -/
def JPy_destroy_jvm (s : JPy_State) (_args : List PyObject) :
    Except Fault (Ret × JPy_State) := do
  let t0 : List Event :=
    match s.JVM.jvm with
    | some jvm => [.DestroyJavaVM jvm]
    | none => []
  let s1 : JPy_State := { s with JVM := { s.JVM with jvm := none, jenv := none } }
  let d1 ← Py_DECREF "JPy_JBoolean" s1.JPy_JBoolean
  let d2 ← Py_DECREF "JPy_JByte" s1.JPy_JByte
  let d3 ← Py_DECREF "JPy_JShort" s1.JPy_JShort
  let d4 ← Py_DECREF "JPy_JInt" s1.JPy_JInt
  let d5 ← Py_DECREF "JPy_JLong" s1.JPy_JLong
  let d6 ← Py_DECREF "JPy_JFloat" s1.JPy_JFloat
  let d7 ← Py_DECREF "JPy_JDouble" s1.JPy_JDouble
  let d8 ← Py_DECREF "JPy_JChar" s1.JPy_JChar
  let d9 ← Py_DECREF "JPy_JVoid" s1.JPy_JVoid
  let s2 : JPy_State :=
    { s1 with
      JPy_JBoolean := none, JPy_JByte := none, JPy_JShort := none, JPy_JInt := none
      JPy_JLong := none, JPy_JFloat := none, JPy_JDouble := none, JPy_JChar := none
      JPy_JVoid := none }
  pure (⟨some .None, none, t0 ++ [d1, d2, d3, d4, d5, d6, d7, d8, d9]⟩, s2)

/-! ## String marshaling -/

/-- The size of `jchar` in bytes (JNI: an unsigned 16 bit integer). -/
def sizeof_jchar : Nat := 2

/-- One `wchar_t` read from a run of `jchar` cells it overlays, low cell first. -/
def overlay : Chars → Nat
  | [] => 0
  | c :: cs => c + 65536 * overlay cs

/-- Reading `n` elements through a `const wchar_t*` that points at a `jchar`
buffer, every element spanning `units` cells of it: `none` when the read leaves
the buffer. -/
def readWChars (units : Nat) : Chars → Nat → Option Chars
  | _, 0 => some []
  | buf, n + 1 =>
    if 0 < units ∧ units ≤ buf.length then
      (readWChars units (buf.drop units) n).map (overlay (buf.take units) :: ·)
    else none

/-- The `jchar` cells one `wchar_t` occupies, low cell first. -/
def cellsOf (units : Nat) (w : Nat) : Chars :=
  (List.range units).map fun j => w / 65536 ^ j % 65536

/-- Reading `n` elements through a `const jchar*` that points at a `wchar_t`
buffer. -/
def readJChars (units : Nat) (wbuf : Chars) (n : Nat) : Chars :=
  ((wbuf.map (cellsOf units)).flatten).take n

/-- The `wchar_t` elements `PyUnicode_AsWideCharString` gives for a string: its
characters, where `wchar_t` has two bytes a character above `U+FFFF` as a
surrogate pair. -/
def PyUnicode_AsWideCharString (sizeof_wchar_t : Nat) (str : Chars) : Chars :=
  if sizeof_wchar_t = 2 then
    (str.map fun c =>
      if 65535 < c then [55296 + (c - 65536) / 1024, 56320 + c % 1024] else [c]).flatten
  else str

/-- Reading UTF-16: a high surrogate followed by a low one is one character,
every other element is a character by itself. `pending` is a high surrogate
that has been read and not yet put out. -/
def joinSurrogates : Option Nat → Chars → Chars
  | none, [] => []
  | some hi, [] => [hi]
  | none, c :: cs =>
    if 55296 ≤ c ∧ c ≤ 56319 then joinSurrogates (some c) cs
    else c :: joinSurrogates none cs
  | some hi, c :: cs =>
    if 56320 ≤ c ∧ c ≤ 57343 then
      (65536 + (hi - 55296) * 1024 + (c - 56320)) :: joinSurrogates none cs
    else if 55296 ≤ c ∧ c ≤ 56319 then hi :: joinSurrogates (some c) cs
    else hi :: c :: joinSurrogates none cs

/-- The characters of the string `PyUnicode_FromWideChar` builds from `wchar_t`
elements: where `wchar_t` has two bytes surrogate pairs are joined, elsewhere
every element is a character. -/
def PyUnicode_FromWideChar (sizeof_wchar_t : Nat) (w : Chars) : Chars :=
  if sizeof_wchar_t = 2 then joinSurrogates none w else w

/-- A heap block of `wchar_t`: the number of elements it was allocated with and
the values stored at the indices `0, 1, 2, ...` in order. -/
structure WBuf where
  size : Nat
  cells : Chars
deriving DecidableEq, Repr

/-- The C function `JPy_ConvertToWCharString`. The block of `length + 1`
elements is tested and then replaced by a second block of `length` elements,
which is not tested; the loop and the terminator are stored into that second
block. `.ok none` is the `NULL` result. -/
def JPy_ConvertToWCharString (x : World) (jChars : Chars) (length : Nat) :
    Except Fault (Option WBuf) :=
  if ¬ x.PyMem_New (length + 1) then .ok none
  else if jChars.length = 0 ∧ 0 < length then .error .outOfBoundsRead
  else if ¬ x.PyMem_New length then .error (.nullDeref "wChars")
  else if jChars.length < length then .error .outOfBoundsRead
  else .ok (some ⟨length, jChars.take length ++ [0]⟩)

/-- The C function `JPy_ConvertJavaToPythonString` on a platform whose `wchar_t`
has `sizeof_wchar_t` bytes. A non-null `jstring` is given by its code units.
Both branches hand `jChars` to `PyUnicode_FromWideChar`; the block
`JPy_ConvertToWCharString` returns is only tested and freed. -/
def JPy_ConvertJavaToPythonString (x : World) (sizeof_wchar_t : Nat)
    (stringRef : Option Chars) : Except Fault Ret :=
  match stringRef with
  | none => .ok ⟨some .None, none, []⟩
  | some str =>
    let length := str.length
    if length = 0 then .ok ⟨some (.Unicode []), none, [.GetStringLength str]⟩
    else
      let jChars := str
      let calls : List Event :=
        [.GetStringLength str, .GetStringChars str, .ReleaseStringChars str]
      if sizeof_jchar = sizeof_wchar_t then
        match readWChars 1 jChars length with
        | none => .error .outOfBoundsRead
        | some w => .ok ⟨some (.Unicode (PyUnicode_FromWideChar sizeof_wchar_t w)), none, calls⟩
      else
        match JPy_ConvertToWCharString x jChars length with
        | .error f => .error f
        | .ok none => .ok ⟨none, some .MemoryError, calls⟩
        | .ok (some _wChars) =>
          match readWChars (sizeof_wchar_t / sizeof_jchar) jChars length with
          | none => .error .outOfBoundsRead
          | some w =>
            .ok ⟨some (.Unicode (PyUnicode_FromWideChar sizeof_wchar_t w)), none, calls⟩

/-- What `JPy_ConvertPythonToJavaString` gives: the returned `int`, the
`jstring` stored through `stringRef` (`none` is `NULL`, also when nothing was
stored), the error indicator and the calls. -/
structure JStringRet where
  result : Int
  stringRef : Option Chars
  err : Option PyErr
  trace : List Event
deriving DecidableEq, Repr

/-- The C function `JPy_ConvertPythonToJavaString`. `PyUnicode_AsWideCharString`
fails on an object that is no string; `NewString` reads `length` cells of type
`jchar` from the `wchar_t` block it is handed. -/
def JPy_ConvertPythonToJavaString (x : World) (sizeof_wchar_t : Nat) (arg : PyObject) :
    JStringRet :=
  if arg = .None then ⟨0, none, none, []⟩
  else
    match arg with
    | .Unicode str =>
      let chars := PyUnicode_AsWideCharString sizeof_wchar_t str
      let length := chars.length
      let seen := readJChars (sizeof_wchar_t / sizeof_jchar) chars length
      if x.NewString seen then ⟨0, some seen, none, [.NewString seen]⟩
      else ⟨-1, none, some .MemoryError, [.NewString seen]⟩
    | _ => ⟨-1, none, some .TypeError, []⟩

/-! ## The errors of the specification -/

/-- The error `NegativeLength`: what `JPy_array` sets for a negative length. -/
def NegativeLength : PyErr := .ValueError "negative array length"

/-- The error `AlreadyRunning`: what `JPy_create_jvm` sets when `JVM.jvm` is set. -/
def AlreadyRunning : PyErr :=
  .RuntimeError "only a single Java VM can be instantiated (use jpy.destroy_jvm() first)"

/-- The error `TypeMismatch`: the two errors `JPy_cast` sets for an argument of
the wrong kind. -/
def TypeMismatch (argument : Nat) : PyErr :=
  if argument = 1 then .ValueError "argument 1 (obj) must be a Java object"
  else .ValueError "argument 2 (obj_type) must be a Java type object"

/-! ## Reading a call trace -/

/-- The calls by which `JPy_array` settles what kind of array it makes: the nine
array constructors and the type lookup by name. -/
def Event.choosesArray : Event → Bool
  | .NewBooleanArray _ | .NewByteArray _ | .NewCharArray _ | .NewShortArray _
  | .NewIntArray _ | .NewLongArray _ | .NewFloatArray _ | .NewDoubleArray _
  | .NewObjectArray _ _ | .JType_GetTypeForName _ _ => true
  | _ => false

/-- The eight names `JPy_array` compares its first argument with. -/
def primitiveNames : List Chars :=
  [cstr "boolean", cstr "byte", cstr "char", cstr "short", cstr "int", cstr "long",
    cstr "float", cstr "double"]

/-! ## Sample inputs -/

/-- A foreign runtime that behaves like a JVM: an array constructor gives `NULL`
for a negative length, every class is found, allocations succeed. -/
def sampleWorld : World where
  JNI_CreateJavaVM := fun _ => (0, some 1, some 2)
  GetEnv := fun jvm => some (jvm + 1)
  FindClass := fun name => some name.length
  GetMethodID := fun _ name _ => some name.length
  GetStaticFieldID := fun _ name _ => some name.length
  GetStaticObjectField := fun cls _ => cls
  NewBooleanArray := fun n => if n < 0 then none else some 11
  NewByteArray := fun n => if n < 0 then none else some 12
  NewCharArray := fun n => if n < 0 then none else some 13
  NewShortArray := fun n => if n < 0 then none else some 14
  NewIntArray := fun n => if n < 0 then none else some 15
  NewLongArray := fun n => if n < 0 then none else some 16
  NewFloatArray := fun n => if n < 0 then none else some 17
  NewDoubleArray := fun n => if n < 0 then none else some 18
  NewObjectArray := fun n _ => if n < 0 then none else some 19
  GetObjectClass := fun ref => ref + 100
  IsInstanceOf := fun ref cls => decide (ref % 2 = cls % 2)
  NewString := fun _ => true
  JType_GetTypeForName := fun name resolve =>
    if name = [] then .error (.Raised 1) else .ok ⟨name.length, resolve⟩
  JType_GetType := fun cls resolve =>
    match cls with
    | some c => .ok ⟨c, resolve⟩
    | none => .error (.Raised 2)
  JObj_FromType := fun type ref => .ok ⟨type, ref⟩
  PyMem_New := fun _ => true

/-- The same runtime with array constructors that hand out an array whatever
the length is. -/
def lenientWorld : World :=
  { sampleWorld with NewIntArray := fun _ => some 15 }

/-- A state with an active session: `JVM.jvm` and `JVM.jenv` set and the nine
singletons in place. -/
def activeState : JPy_State :=
  { JVM := ⟨some 1, some 2, 0⟩
    JPy_JBoolean := some ⟨21, true⟩, JPy_JByte := some ⟨22, true⟩
    JPy_JShort := some ⟨23, true⟩, JPy_JInt := some ⟨24, true⟩
    JPy_JLong := some ⟨25, true⟩, JPy_JFloat := some ⟨26, true⟩
    JPy_JDouble := some ⟨27, true⟩, JPy_JChar := some ⟨28, true⟩
    JPy_JVoid := some ⟨29, true⟩, JPy_JString := some ⟨30, false⟩
    vm := VMInfo.init }

/-- The globals after `destroy_jvm()` in `activeState`. -/
def tornDownState : JPy_State :=
  { JVM := ⟨none, none, 0⟩
    JPy_JBoolean := none, JPy_JByte := none, JPy_JShort := none, JPy_JInt := none
    JPy_JLong := none, JPy_JFloat := none, JPy_JDouble := none, JPy_JChar := none
    JPy_JVoid := none, JPy_JString := some ⟨30, false⟩
    vm := VMInfo.init }

/-- What `destroy_jvm()` returns in `activeState`: `None`, and the calls made. -/
def activeTeardown : Ret :=
  ⟨some .None, none,
    [.DestroyJavaVM 1, .Py_DECREF ⟨21, true⟩, .Py_DECREF ⟨22, true⟩, .Py_DECREF ⟨23, true⟩,
      .Py_DECREF ⟨24, true⟩, .Py_DECREF ⟨25, true⟩, .Py_DECREF ⟨26, true⟩,
      .Py_DECREF ⟨27, true⟩, .Py_DECREF ⟨28, true⟩, .Py_DECREF ⟨29, true⟩]⟩

/-- The class and method handles `JPy_InitGlobalVars` caches in `sampleWorld`. -/
def sampleVMInfo : VMInfo :=
  { JPy_Comparable_JClass := some 20
    JPy_Object_JClass := some 16
    JPy_Object_ToString_MID := some 8
    JPy_Object_HashCode_MID := some 8
    JPy_Object_Equals_MID := some 6
    JPy_Class_JClass := some 15
    JPy_Class_GetName_MID := some 7
    JPy_Class_GetDeclaredConstructors_MID := some 23
    JPy_Class_GetDeclaredFields_MID := some 17
    JPy_Class_GetDeclaredMethods_MID := some 18
    JPy_Class_GetComponentType_MID := some 16
    JPy_Class_IsPrimitive_MID := some 11
    JPy_Constructor_JClass := some 29
    JPy_Constructor_GetModifiers_MID := some 12
    JPy_Constructor_GetParameterTypes_MID := some 17
    JPy_Method_JClass := some 24
    JPy_Method_GetName_MID := some 7
    JPy_Method_GetReturnType_MID := some 13
    JPy_Method_GetParameterTypes_MID := some 17
    JPy_Method_GetModifiers_MID := some 12
    JPy_Field_JClass := some 23
    JPy_Field_GetName_MID := some 7
    JPy_Field_GetModifiers_MID := some 12
    JPy_Field_GetType_MID := some 7 }

/-- The globals after `create_jvm([])` has succeeded in `sampleWorld`, starting
from the state the module is loaded with. -/
def startedState : JPy_State :=
  { JVM := ⟨some 1, some 2, 0⟩
    JPy_JBoolean := some ⟨17, true⟩, JPy_JByte := some ⟨14, true⟩
    JPy_JShort := some ⟨15, true⟩, JPy_JInt := some ⟨17, true⟩
    JPy_JLong := some ⟨14, true⟩, JPy_JFloat := some ⟨15, true⟩
    JPy_JDouble := some ⟨16, true⟩, JPy_JChar := some ⟨19, true⟩
    JPy_JVoid := some ⟨14, true⟩, JPy_JString := some ⟨16, false⟩
    vm := sampleVMInfo }

/-- The globals after the foreign runtime `1` has loaded the module
(`JNI_OnLoad`) into the state the module starts with: a session is attached and
the nine singletons are still `NULL`. -/
def loadedState : JPy_State :=
  { JPy_State.init with JVM := ⟨some 1, some 2, 0⟩ }

/-- The nine primitive-type singletons are in place. -/
def JPy_State.singletonsSet (s : JPy_State) : Prop :=
  s.JPy_JBoolean.isSome ∧ s.JPy_JByte.isSome ∧ s.JPy_JShort.isSome ∧
    s.JPy_JInt.isSome ∧ s.JPy_JLong.isSome ∧ s.JPy_JFloat.isSome ∧
    s.JPy_JDouble.isSome ∧ s.JPy_JChar.isSome ∧ s.JPy_JVoid.isSome

instance (s : JPy_State) : Decidable s.singletonsSet := by
  unfold JPy_State.singletonsSet; infer_instance

/-- Every store into the block went to an index below the number of elements
the block was allocated with. -/
def WBuf.storesInBounds (b : WBuf) : Prop := b.cells.length ≤ b.size

instance (b : WBuf) : Decidable b.storesInBounds := by
  unfold WBuf.storesInBounds; infer_instance

/-! ## Theorems -/

/-- The first branch of `JPy_create_jvm`. -/
theorem create_jvm_first_branch (x : World) (s : JPy_State) (args : List PyObject)
    (kwds : List (Chars × PyObject)) (h : s.JVM.jvm ≠ none) :
    JPy_create_jvm x s args kwds = .ok (⟨none, some AlreadyRunning, []⟩, s) := by
  simp [JPy_create_jvm, h, AlreadyRunning]

/-- What is left of the globals when `JPy_destroy_jvm` has run to its end: the
attachment and the nine singletons are `NULL`, the rest is as before. -/
theorem JPy_destroy_jvm_ok (s s' : JPy_State) (a : List PyObject) (r : Ret)
    (h : JPy_destroy_jvm s a = .ok (r, s')) :
    s' = { s with
            JVM := ⟨none, none, s.JVM.DEBUG⟩
            JPy_JBoolean := none, JPy_JByte := none, JPy_JShort := none, JPy_JInt := none
            JPy_JLong := none, JPy_JFloat := none, JPy_JDouble := none, JPy_JChar := none
            JPy_JVoid := none } := by
  obtain ⟨jvm, b1, b2, b3, b4, b5, b6, b7, b8, b9, str, vm⟩ := s
  cases b1 <;> cases b2 <;> cases b3 <;> cases b4 <;> cases b5 <;> cases b6 <;>
    cases b7 <;> cases b8 <;> cases b9 <;>
    simp [JPy_destroy_jvm, Py_DECREF, bind, Except.bind, pure, Except.pure] at h
  exact h.2.symm

/-- Without an attachment the three entry points stop at
`JPy_GET_JNI_ENV_OR_RETURN`, before they look at their arguments. -/
theorem no_session_calls_fail (x : World) (s : JPy_State) (h : s.JVM.jenv = none)
    (args : List PyObject) (kwds : List (Chars × PyObject)) :
    JPy_get_class x s args kwds = ⟨none, some .NoActiveSession, []⟩ ∧
      JPy_cast x s args = ⟨none, some .NoActiveSession, []⟩ ∧
      JPy_array x s args = ⟨none, some .NoActiveSession, []⟩ := by
  simp [JPy_get_class, JPy_cast, JPy_array, JPy_GET_JNI_ENV_OR_RETURN, JPy_GetJNIEnv, h]

/-- C1, at the failing input `array('int', -1)` with an active session: the
error `NegativeLength` is set but the function does not return; it calls
`NewIntArray` with length `-1`. When the runtime answers `NULL` the caller gets
`MemoryError` in place of `NegativeLength`; when the runtime answers with an
array the caller gets an array proxy. -/
theorem JPy_array_negative_length_goes_on :
    JPy_array sampleWorld activeState [.Unicode (cstr "int"), .Long (-1)]
        = ⟨none, some .MemoryError, [.NewIntArray (-1)]⟩ ∧
      JPy_array lenientWorld activeState [.Unicode (cstr "int"), .Long (-1)]
        = ⟨some (.JObj ⟨⟨115, false⟩, 15⟩), some NegativeLength,
            [.NewIntArray (-1), .GetObjectClass 15, .JType_GetType (some 115) false,
              .JObj_FromType ⟨115, false⟩ 15]⟩ := by
  constructor <;> decide

/-- The `strcmp` chain of `JPy_array` makes a call for every name and length. -/
theorem JPy_array_new_calls (x : World) (name : Chars) (length : Int) :
    (JPy_array_new x name length).2 ≠ [] := by
  unfold JPy_array_new
  repeat' split
  all_goals simp

/-- A negative length does not stop `JPy_array`: on arguments that fit the format
(the string `str` gives the C string `name`) and with a session it makes a call
whatever the name and the length are. -/
theorem JPy_array_always_calls (x : World) (s : JPy_State) (str name : Chars) (length : Int)
    (h : s.JVM.jenv ≠ none) (hi : fitsInt length) (hs : PyArg_s (.Unicode str) = some name) :
    (JPy_array x s [.Unicode str, .Long length]).trace ≠ [] := by
  obtain ⟨jenv, hj⟩ := Option.ne_none_iff_exists'.mp h
  have hc := JPy_array_new_calls x name length
  simp only [JPy_array, JPy_GET_JNI_ENV_OR_RETURN, JPy_GetJNIEnv, hj, PyArg_ParseTuple_si,
    hs, PyArg_i, hi, if_true, if_false]
  rcases hn : JPy_array_new x name length with ⟨r, tr⟩
  rw [hn] at hc
  rcases r with e | (_ | a)
  · simpa using hc
  · simpa using hc
  · simp only [JPy_array_proxy]
    split
    · simp
    · split <;> simp

/-- C2: with `JVM.jvm` set, `JPy_create_jvm` returns `NULL` with the error
`AlreadyRunning`, makes no call at all (so none to `JNI_CreateJavaVM`) and
leaves every global as it was, whatever the arguments are. -/
theorem JPy_create_jvm_already_running (x : World) (s : JPy_State) (args : List PyObject)
    (kwds : List (Chars × PyObject)) (h : s.JVM.jvm ≠ none) :
    JPy_create_jvm x s args kwds = .ok (⟨none, some AlreadyRunning, []⟩, s) := by
  simp [JPy_create_jvm, h, AlreadyRunning]

/-- Witness of C2: a second `create_jvm(['-Xmx64m'], debug=True)` in the sample
session. -/
theorem JPy_create_jvm_already_running_witness :
    activeState.JVM.jvm ≠ none ∧
      JPy_create_jvm sampleWorld activeState [.List [some (cstr "-Xmx64m")]]
          [(cstr "debug", .Bool true)]
        = .ok (⟨none, some AlreadyRunning, []⟩, activeState) :=
  ⟨by decide, JPy_create_jvm_already_running sampleWorld activeState _ _ (by decide)⟩

/-- C3: from every state, once `JPy_destroy_jvm` has run, each of `JPy_get_class`,
`JPy_cast` and `JPy_array` returns `NULL` with the error `NoActiveSession` and
makes no call, whatever its arguments are. -/
theorem calls_after_destroy_fail (x : World) (s s' : JPy_State) (a : List PyObject) (r : Ret)
    (h : JPy_destroy_jvm s a = .ok (r, s'))
    (args : List PyObject) (kwds : List (Chars × PyObject)) :
    JPy_get_class x s' args kwds = ⟨none, some .NoActiveSession, []⟩ ∧
      JPy_cast x s' args = ⟨none, some .NoActiveSession, []⟩ ∧
      JPy_array x s' args = ⟨none, some .NoActiveSession, []⟩ := by
  have hs := JPy_destroy_jvm_ok s s' a r h
  exact no_session_calls_fail x s' (by rw [hs]) args kwds

/-- Witness of C3: teardown of the sample session, then `get_class`, `cast` and
`array` on the arguments `('int', 5)`. -/
theorem calls_after_destroy_fail_witness :
    JPy_destroy_jvm activeState [] = .ok (activeTeardown, tornDownState) ∧
      JPy_get_class sampleWorld tornDownState [.Unicode (cstr "int"), .Long 5] []
        = ⟨none, some .NoActiveSession, []⟩ ∧
      JPy_cast sampleWorld tornDownState [.Unicode (cstr "int"), .Long 5]
        = ⟨none, some .NoActiveSession, []⟩ ∧
      JPy_array sampleWorld tornDownState [.Unicode (cstr "int"), .Long 5]
        = ⟨none, some .NoActiveSession, []⟩ :=
  ⟨rfl, calls_after_destroy_fail sampleWorld activeState tornDownState [] activeTeardown rfl
    [.Unicode (cstr "int"), .Long 5] []⟩

/-- C4, at the failing input `destroy_jvm()` in the state the module is loaded
with (no session, every singleton `NULL`): the first `Py_DECREF` is applied to
`NULL`. The same happens to a second `destroy_jvm()` after one that went
through, because the first one has set the singletons to `NULL`. -/
theorem JPy_destroy_jvm_without_session_faults :
    JPy_destroy_jvm JPy_State.init [] = .error (.nullDeref "JPy_JBoolean") ∧
      JPy_destroy_jvm activeState [] = .ok (activeTeardown, tornDownState) ∧
      JPy_destroy_jvm tornDownState [] = .error (.nullDeref "JPy_JBoolean") :=
  ⟨rfl, rfl, rfl⟩

/-- C5: with an active session, for a proxy `p` and a type descriptor `T`,
`JPy_cast` returns `None` with no error exactly when `IsInstanceOf` of the
object reference of `p` against the class handle of `T` is false, and then
`IsInstanceOf` is the only call; when it is true the call returns what the proxy
constructor `JObj_FromType` builds from `T` and the object reference of `p`. -/
theorem JPy_cast_follows_IsInstanceOf (x : World) (s : JPy_State) (p : JPy_JObj)
    (T : JPy_JType) (h : s.JVM.jenv ≠ none) :
    ((JPy_cast x s [.JObj p, .JType T]).value = some .None ∧
        (JPy_cast x s [.JObj p, .JType T]).err = none
      ↔ x.IsInstanceOf p.objectRef T.classRef = false) ∧
    (x.IsInstanceOf p.objectRef T.classRef = false →
      JPy_cast x s [.JObj p, .JType T]
        = ⟨some .None, none, [.IsInstanceOf p.objectRef T.classRef]⟩) ∧
    (x.IsInstanceOf p.objectRef T.classRef = true →
      JPy_cast x s [.JObj p, .JType T]
        = match x.JObj_FromType T p.objectRef with
          | .ok q => ⟨some (.JObj q), none,
              [.IsInstanceOf p.objectRef T.classRef, .JObj_FromType T p.objectRef]⟩
          | .error e => ⟨none, some e,
              [.IsInstanceOf p.objectRef T.classRef, .JObj_FromType T p.objectRef]⟩) := by
  obtain ⟨jenv, hj⟩ := Option.ne_none_iff_exists'.mp h
  cases hi : x.IsInstanceOf p.objectRef T.classRef <;>
    cases hq : x.JObj_FromType T p.objectRef <;>
    simp [JPy_cast, JPy_GET_JNI_ENV_OR_RETURN, JPy_GetJNIEnv, hj, PyArg_ParseTuple_OO,
      JObj_Check, JType_Check, hi, hq]

/-- Witness of C5: in the sample session a proxy over the object `7` is cast to a
type whose class handle `9` it is an instance of, then to one (`8`) it is not. -/
theorem JPy_cast_follows_IsInstanceOf_witness :
    activeState.JVM.jenv ≠ none ∧
      JPy_cast sampleWorld activeState [.JObj ⟨⟨5, true⟩, 7⟩, .JType ⟨9, true⟩]
        = ⟨some (.JObj ⟨⟨9, true⟩, 7⟩), none, [.IsInstanceOf 7 9, .JObj_FromType ⟨9, true⟩ 7]⟩ ∧
      JPy_cast sampleWorld activeState [.JObj ⟨⟨5, true⟩, 7⟩, .JType ⟨8, true⟩]
        = ⟨some .None, none, [.IsInstanceOf 7 8]⟩ :=
  ⟨by decide,
    (JPy_cast_follows_IsInstanceOf sampleWorld activeState ⟨⟨5, true⟩, 7⟩ ⟨9, true⟩
      (by decide)).2.2 (by decide),
    (JPy_cast_follows_IsInstanceOf sampleWorld activeState ⟨⟨5, true⟩, 7⟩ ⟨8, true⟩
      (by decide)).2.1 (by decide)⟩

/-- C6 as stated fails: `cast(None, x)` with `x` no type descriptor. `None` is
not a proxy and `x` is not a type descriptor, yet the call returns `None` and
sets no error. -/
theorem cast_of_None_is_no_TypeMismatch :
    JObj_Check .None = none ∧ JType_Check (.Other 0) = none ∧
      JPy_cast sampleWorld activeState [.None, .Other 0] = ⟨some .None, none, []⟩ := by
  decide

/-- C6 amended: with an active session and a first argument that is not `None`,
if the first argument is not a proxy or the second is not a type descriptor,
`JPy_cast` returns `NULL` with the error `TypeMismatch` (for argument 1 when the
first is not a proxy, else for argument 2) and makes no call, so none to
`IsInstanceOf`. -/
theorem JPy_cast_TypeMismatch (x : World) (s : JPy_State) (obj objType : PyObject)
    (h : s.JVM.jenv ≠ none) (hn : obj ≠ .None)
    (hc : JObj_Check obj = none ∨ JType_Check objType = none) :
    JPy_cast x s [obj, objType]
      = ⟨none, some (TypeMismatch (if JObj_Check obj = none then 1 else 2)), []⟩ := by
  obtain ⟨jenv, hj⟩ := Option.ne_none_iff_exists'.mp h
  cases ho : JObj_Check obj with
  | none =>
    simp [JPy_cast, JPy_GET_JNI_ENV_OR_RETURN, JPy_GetJNIEnv, hj, PyArg_ParseTuple_OO, hn, ho,
      TypeMismatch]
  | some p =>
    have ht : JType_Check objType = none := by simpa [ho] using hc
    simp [JPy_cast, JPy_GET_JNI_ENV_OR_RETURN, JPy_GetJNIEnv, hj, PyArg_ParseTuple_OO, hn, ho, ht,
      TypeMismatch]

/-- Witness of C6 amended: `cast('abc', type)` and `cast(proxy, 5)` in the sample
session. -/
theorem JPy_cast_TypeMismatch_witness :
    JPy_cast sampleWorld activeState [.Unicode (cstr "abc"), .JType ⟨9, true⟩]
        = ⟨none, some (.ValueError "argument 1 (obj) must be a Java object"), []⟩ ∧
      JPy_cast sampleWorld activeState [.JObj ⟨⟨5, true⟩, 7⟩, .Long 5]
        = ⟨none, some (.ValueError "argument 2 (obj_type) must be a Java type object"), []⟩ :=
  ⟨JPy_cast_TypeMismatch sampleWorld activeState (.Unicode (cstr "abc")) (.JType ⟨9, true⟩)
      (by decide) (by decide) (Or.inl rfl),
    JPy_cast_TypeMismatch sampleWorld activeState (.JObj ⟨⟨5, true⟩, 7⟩) (.Long 5)
      (by decide) (by decide) (Or.inr rfl)⟩

/-- The target of a cast may be a descriptor that is not resolved: `JPy_cast`
goes on to `IsInstanceOf` with it. -/
theorem JPy_cast_unresolved_target :
    JPy_cast sampleWorld activeState [.JObj ⟨⟨5, true⟩, 7⟩, .JType ⟨9, false⟩]
      = ⟨some (.JObj ⟨⟨9, false⟩, 7⟩), none,
          [.IsInstanceOf 7 9, .JObj_FromType ⟨9, false⟩ 7]⟩ := by
  decide

/-- C7: with an active session, `JPy_cast` called with `None` as the object
returns `None`, sets no error and makes no call, whatever the second argument
is. -/
theorem cast_None_returns_None (x : World) (s : JPy_State) (objType : PyObject)
    (h : s.JVM.jenv ≠ none) :
    JPy_cast x s [.None, objType] = ⟨some .None, none, []⟩ := by
  obtain ⟨jenv, hj⟩ := Option.ne_none_iff_exists'.mp h
  simp [JPy_cast, JPy_GET_JNI_ENV_OR_RETURN, JPy_GetJNIEnv, hj, PyArg_ParseTuple_OO]

/-- Witness of C7: `cast(None, type)` in the sample session. -/
theorem cast_None_returns_None_witness :
    activeState.JVM.jenv ≠ none ∧
      JPy_cast sampleWorld activeState [.None, .JType ⟨9, true⟩] = ⟨some .None, none, []⟩ :=
  ⟨by decide, cast_None_returns_None sampleWorld activeState (.JType ⟨9, true⟩) (by decide)⟩

/-- C8: `None` becomes the `NULL` string and the `NULL` string becomes `None`;
the empty host string becomes a foreign string with no code unit (when
`NewString` gives one; otherwise the conversion fails with `-1`, it never
succeeds with `NULL`), and a foreign string with no code unit becomes the empty
host string. This holds for every width of `wchar_t`. -/
theorem string_null_and_empty_stay_apart (x : World) (sizeof_wchar_t : Nat) :
    JPy_ConvertPythonToJavaString x sizeof_wchar_t .None = ⟨0, none, none, []⟩ ∧
      JPy_ConvertJavaToPythonString x sizeof_wchar_t none = .ok ⟨some .None, none, []⟩ ∧
      JPy_ConvertPythonToJavaString x sizeof_wchar_t (.Unicode [])
        = (if x.NewString [] then ⟨0, some [], none, [.NewString []]⟩
            else ⟨-1, none, some .MemoryError, [.NewString []]⟩) ∧
      JPy_ConvertJavaToPythonString x sizeof_wchar_t (some [])
        = .ok ⟨some (.Unicode []), none, [.GetStringLength []]⟩ := by
  refine ⟨?_, ?_, ?_, ?_⟩
  · simp [JPy_ConvertPythonToJavaString]
  · simp [JPy_ConvertJavaToPythonString]
  · simp [JPy_ConvertPythonToJavaString, PyUnicode_AsWideCharString, readJChars]
  · simp [JPy_ConvertJavaToPythonString]

/-- Read with the width of `jchar`, a buffer gives back its own cells. -/
theorem readWChars_same_width (buf : Chars) : readWChars 1 buf buf.length = some buf := by
  induction buf with
  | nil => rfl
  | cons c cs ih => simp [readWChars, ih, overlay]

/-- A buffer with fewer than `units * n` cells cannot be read as `n` elements of
`units` cells. -/
theorem readWChars_short (units : Nat) :
    ∀ (n : Nat) (buf : Chars), buf.length < units * n → readWChars units buf n = none := by
  intro n
  induction n with
  | zero => intro buf h; simp at h
  | succ n ih =>
    intro buf h
    unfold readWChars
    split
    · rename_i hc
      have hd : (buf.drop units).length < units * n := by
        rw [List.length_drop]; rw [Nat.mul_succ] at h; omega
      simp [ih _ hd]
    · rfl

/-- A run of elements without a high surrogate is read as it stands. -/
theorem joinSurrogates_plain (w : Chars) (h : ∀ c ∈ w, ¬ (55296 ≤ c ∧ c ≤ 56319)) :
    joinSurrogates none w = w := by
  induction w with
  | nil => rfl
  | cons c cs ih =>
    have hc := h c (List.mem_cons_self c cs)
    have hcs : ∀ d ∈ cs, ¬ (55296 ≤ d ∧ d ≤ 56319) := fun d hd =>
      h d (List.mem_cons_of_mem c hd)
    simp only [joinSurrogates, hc, if_false, ih hcs]

/-- Where `wchar_t` is as wide as `jchar`, a foreign string with at least one
code unit becomes the host string `PyUnicode_FromWideChar` builds from the same
code units: one character for each code unit when no surrogate pair is among
them. -/
theorem JPy_ConvertJavaToPythonString_same_width (x : World) (str : Chars) (h : str ≠ []) :
    JPy_ConvertJavaToPythonString x 2 (some str)
      = .ok ⟨some (.Unicode (joinSurrogates none str)), none,
          [.GetStringLength str, .GetStringChars str, .ReleaseStringChars str]⟩ := by
  simp [JPy_ConvertJavaToPythonString, h, sizeof_jchar, readWChars_same_width,
    PyUnicode_FromWideChar]

/-- Where `wchar_t` has four bytes, no foreign string with a code unit comes back
as a host string. -/
theorem JPy_ConvertJavaToPythonString_wide (x : World) (str : Chars) (h : str ≠ []) (r : Ret)
    (hr : JPy_ConvertJavaToPythonString x 4 (some str) = .ok r) : r.value = none := by
  have hs : readWChars 2 str str.length = none :=
    readWChars_short 2 str.length str (by
      have : 0 < str.length := List.length_pos.mpr h
      omega)
  have h4 : (4 : Nat) / sizeof_jchar = 2 := by decide
  simp only [JPy_ConvertJavaToPythonString, List.length_eq_zero, h, if_false, sizeof_jchar,
    show ¬ ((2 : Nat) = 4) by decide] at hr
  rw [show (4 : Nat) / 2 = 2 by decide, hs] at hr
  split at hr
  · simp at hr
  · simp at hr; rw [← hr]
  · simp at hr

/-- C9, at the failing input: the foreign string of the two code units `a`, `b`
on a platform whose `wchar_t` has four bytes. `JPy_ConvertToWCharString` yields
the converted characters, but `PyUnicode_FromWideChar` is handed `jChars`: two
elements of four bytes are read from a buffer of two elements of two bytes, and
no host string `ab` results. With a `wchar_t` of two bytes the same input gives
`ab`. -/
theorem JPy_ConvertJavaToPythonString_reads_jChars :
    JPy_ConvertToWCharString sampleWorld [97, 98] 2 = .ok (some ⟨2, [97, 98, 0]⟩) ∧
      JPy_ConvertJavaToPythonString sampleWorld 4 (some [97, 98]) = .error .outOfBoundsRead ∧
      JPy_ConvertJavaToPythonString sampleWorld 2 (some [97, 98])
        = .ok ⟨some (.Unicode [97, 98]), none,
            [.GetStringLength [97, 98], .GetStringChars [97, 98],
              .ReleaseStringChars [97, 98]]⟩ :=
  ⟨rfl, rfl, rfl⟩

/-- The calls after the array is made choose nothing. -/
theorem JPy_array_proxy_trace (x : World) (err : Option PyErr) (tr : List Event) (a : JRef) :
    (JPy_array_proxy x err tr a).trace.filter Event.choosesArray
      = tr.filter Event.choosesArray := by
  simp only [JPy_array_proxy]
  split
  · simp [Event.choosesArray]
  · split <;> simp [Event.choosesArray]

/-- On arguments that fit the format (the string `str` gives the C string
`name`) and with a session, the choosing calls of `JPy_array` are those of its
`strcmp` chain on `name`. -/
theorem JPy_array_trace (x : World) (s : JPy_State) (str name : Chars) (length : Int)
    (h : s.JVM.jenv ≠ none) (hi : fitsInt length) (hs : PyArg_s (.Unicode str) = some name) :
    (JPy_array x s [.Unicode str, .Long length]).trace.filter Event.choosesArray
      = (JPy_array_new x name length).2.filter Event.choosesArray := by
  obtain ⟨jenv, hj⟩ := Option.ne_none_iff_exists'.mp h
  simp only [JPy_array, JPy_GET_JNI_ENV_OR_RETURN, JPy_GetJNIEnv, hj, PyArg_ParseTuple_si,
    hs, PyArg_i, hi, if_true, if_false]
  rcases hn : JPy_array_new x name length with ⟨r, tr⟩
  rcases r with e | (_ | a)
  · simp
  · simp
  · simp [JPy_array_proxy_trace]

/-- A first argument that has no C string (it is no string, cannot be encoded in
UTF-8, or holds a null character) stops `JPy_array` at `PyArg_ParseTuple`: no
call is made. -/
theorem JPy_array_bad_name (x : World) (s : JPy_State) (a b : PyObject)
    (h : s.JVM.jenv ≠ none) (hs : PyArg_s a = none) :
    JPy_array x s [a, b] = ⟨none, some .ArgumentError, []⟩ := by
  obtain ⟨jenv, hj⟩ := Option.ne_none_iff_exists'.mp h
  simp [JPy_array, JPy_GET_JNI_ENV_OR_RETURN, JPy_GetJNIEnv, hj, PyArg_ParseTuple_si, hs]

/-- C10: with an active session and a length `>= 0`, for a first argument `str`
that `PyArg_ParseTuple` turns into the C string `name` (its UTF-8 encoding): the
only choosing call `JPy_array` makes for each of the eight primitive names is
the array constructor of that name (no lookup by name, no other constructor);
for every other name it looks the name up with `resolve = false` and then calls
`NewObjectArray` with the class handle of the type found, and when the lookup
fails it returns `NULL` with the error of the lookup, having made no other
call. -/
theorem JPy_array_chooses_constructor (x : World) (s : JPy_State) (str name : Chars)
    (length : Int) (h : s.JVM.jenv ≠ none) (_hl : 0 ≤ length) (hi : fitsInt length)
    (hs : PyArg_s (.Unicode str) = some name) :
    (name = cstr "boolean" →
      (JPy_array x s [.Unicode str, .Long length]).trace.filter Event.choosesArray
        = [.NewBooleanArray length]) ∧
    (name = cstr "byte" →
      (JPy_array x s [.Unicode str, .Long length]).trace.filter Event.choosesArray
        = [.NewByteArray length]) ∧
    (name = cstr "char" →
      (JPy_array x s [.Unicode str, .Long length]).trace.filter Event.choosesArray
        = [.NewCharArray length]) ∧
    (name = cstr "short" →
      (JPy_array x s [.Unicode str, .Long length]).trace.filter Event.choosesArray
        = [.NewShortArray length]) ∧
    (name = cstr "int" →
      (JPy_array x s [.Unicode str, .Long length]).trace.filter Event.choosesArray
        = [.NewIntArray length]) ∧
    (name = cstr "long" →
      (JPy_array x s [.Unicode str, .Long length]).trace.filter Event.choosesArray
        = [.NewLongArray length]) ∧
    (name = cstr "float" →
      (JPy_array x s [.Unicode str, .Long length]).trace.filter Event.choosesArray
        = [.NewFloatArray length]) ∧
    (name = cstr "double" →
      (JPy_array x s [.Unicode str, .Long length]).trace.filter Event.choosesArray
        = [.NewDoubleArray length]) ∧
    (name ∉ primitiveNames →
      match x.JType_GetTypeForName name false with
      | .error e =>
        JPy_array x s [.Unicode str, .Long length]
          = ⟨none, some e, [.JType_GetTypeForName name false]⟩
      | .ok T =>
        (JPy_array x s [.Unicode str, .Long length]).trace.filter Event.choosesArray
          = [.JType_GetTypeForName name false, .NewObjectArray length T.classRef]) := by
  have ht := JPy_array_trace x s str name length h hi hs
  refine ⟨?_, ?_, ?_, ?_, ?_, ?_, ?_, ?_, ?_⟩
  · intro hn; subst hn; rw [ht]; simp [JPy_array_new, Event.choosesArray, cstr]
  · intro hn; subst hn; rw [ht]; simp [JPy_array_new, Event.choosesArray, cstr]
  · intro hn; subst hn; rw [ht]; simp [JPy_array_new, Event.choosesArray, cstr]
  · intro hn; subst hn; rw [ht]; simp [JPy_array_new, Event.choosesArray, cstr]
  · intro hn; subst hn; rw [ht]; simp [JPy_array_new, Event.choosesArray, cstr]
  · intro hn; subst hn; rw [ht]; simp [JPy_array_new, Event.choosesArray, cstr]
  · intro hn; subst hn; rw [ht]; simp [JPy_array_new, Event.choosesArray, cstr]
  · intro hn; subst hn; rw [ht]; simp [JPy_array_new, Event.choosesArray, cstr]
  · intro hn
    simp only [primitiveNames, List.mem_cons, List.mem_singleton, not_or, List.not_mem_nil,
      not_false_eq_true, and_true] at hn
    obtain ⟨h1, h2, h3, h4, h5, h6, h7, h8⟩ := hn
    obtain ⟨jenv, hj⟩ := Option.ne_none_iff_exists'.mp h
    cases hq : x.JType_GetTypeForName name false with
    | error e =>
      simp [JPy_array, JPy_GET_JNI_ENV_OR_RETURN, JPy_GetJNIEnv, hj, PyArg_ParseTuple_si,
        hs, PyArg_i, hi, JPy_array_new, h1, h2, h3, h4, h5, h6, h7, h8, hq]
    | ok T =>
      simp only []
      rw [ht]
      simp [JPy_array_new, h1, h2, h3, h4, h5, h6, h7, h8, hq, Event.choosesArray]

/-- Witness of C10: `array('int', 5)`, `array('java.lang.String', 5)` and
`array('é', 5)`, whose name reaches the lookup as the two bytes of its UTF-8
encoding, in the sample session. -/
theorem JPy_array_chooses_constructor_witness :
    (JPy_array sampleWorld activeState [.Unicode (cstr "int"), .Long 5]).trace.filter
        Event.choosesArray = [.NewIntArray 5] ∧
      (JPy_array sampleWorld activeState
          [.Unicode (cstr "java.lang.String"), .Long 5]).trace.filter Event.choosesArray
        = [.JType_GetTypeForName (cstr "java.lang.String") false, .NewObjectArray 5 16] ∧
      (JPy_array sampleWorld activeState [.Unicode [233], .Long 5]).trace.filter
        Event.choosesArray
        = [.JType_GetTypeForName [195, 169] false, .NewObjectArray 5 2] :=
  ⟨(JPy_array_chooses_constructor sampleWorld activeState (cstr "int") (cstr "int") 5
      (by decide) (by decide) (by decide) (by decide)).2.2.2.2.1 rfl,
    (JPy_array_chooses_constructor sampleWorld activeState (cstr "java.lang.String")
      (cstr "java.lang.String") 5
      (by decide) (by decide) (by decide) (by decide)).2.2.2.2.2.2.2.2 (by decide),
    (JPy_array_chooses_constructor sampleWorld activeState [233] [195, 169] 5
      (by decide) (by decide) (by decide) (by decide)).2.2.2.2.2.2.2.2 (by decide)⟩

/-- A name that is a lone surrogate, in the sample session: `array('\ud800', 5)`
has no UTF-8 encoding and stops at `PyArg_ParseTuple` with no call. -/
theorem JPy_array_unencodable_name :
    JPy_array sampleWorld activeState [.Unicode [55296], .Long 5]
      = ⟨none, some .ArgumentError, []⟩ := by
  decide

/-- C11, at the failing input: `destroy_jvm()` in the state `JNI_OnLoad` leaves.
A session is active there (`JVM.jvm` and `JVM.jenv` are set) and the nine
singletons are `NULL`, since `JNI_OnLoad` does not call `JPy_InitGlobalVars`.
`JPy_destroy_jvm` does not run to its end: the first `Py_DECREF` is applied to
`NULL`. -/
theorem JPy_destroy_jvm_after_JNI_OnLoad_faults :
    JNI_OnLoad sampleWorld JPy_State.init 1 = (loadedState, [.GetEnv 1]) ∧
      loadedState.JVM = ⟨some 1, some 2, 0⟩ ∧
      JPy_destroy_jvm loadedState [] = .error (.nullDeref "JPy_JBoolean") :=
  ⟨rfl, rfl, rfl⟩

/-- In every state with a session (`JVM.jvm` set) and the nine singletons
in place, `JPy_destroy_jvm` runs to its end, calls `DestroyJavaVM`, applies
`Py_DECREF` once to each of `JPy_JBoolean`, `JPy_JByte`, `JPy_JShort`, `JPy_JInt`,
`JPy_JLong`, `JPy_JFloat`, `JPy_JDouble`, `JPy_JChar`, `JPy_JVoid` and makes no
other call; afterwards `JVM.jvm`, `JVM.jenv` and the nine singletons are `NULL`
and every other global is as before. -/
theorem JPy_destroy_jvm_releases (s : JPy_State) (a : List PyObject) (jvm : JRef)
    (tBoolean tByte tShort tInt tLong tFloat tDouble tChar tVoid : JPy_JType)
    (hj : s.JVM.jvm = some jvm)
    (h1 : s.JPy_JBoolean = some tBoolean) (h2 : s.JPy_JByte = some tByte)
    (h3 : s.JPy_JShort = some tShort) (h4 : s.JPy_JInt = some tInt)
    (h5 : s.JPy_JLong = some tLong) (h6 : s.JPy_JFloat = some tFloat)
    (h7 : s.JPy_JDouble = some tDouble) (h8 : s.JPy_JChar = some tChar)
    (h9 : s.JPy_JVoid = some tVoid) :
    JPy_destroy_jvm s a
      = .ok (⟨some .None, none,
            [.DestroyJavaVM jvm, .Py_DECREF tBoolean, .Py_DECREF tByte, .Py_DECREF tShort,
              .Py_DECREF tInt, .Py_DECREF tLong, .Py_DECREF tFloat, .Py_DECREF tDouble,
              .Py_DECREF tChar, .Py_DECREF tVoid]⟩,
          { s with
            JVM := ⟨none, none, s.JVM.DEBUG⟩
            JPy_JBoolean := none, JPy_JByte := none, JPy_JShort := none, JPy_JInt := none
            JPy_JLong := none, JPy_JFloat := none, JPy_JDouble := none, JPy_JChar := none
            JPy_JVoid := none }) := by
  simp [JPy_destroy_jvm, Py_DECREF, bind, Except.bind, pure, Except.pure, hj, h1, h2, h3, h4,
    h5, h6, h7, h8, h9]

/-- The teardown of a session that `create_jvm([])` has set up in the sample
runtime. -/
theorem JPy_destroy_jvm_releases_witness :
    JPy_destroy_jvm startedState []
      = .ok (⟨some .None, none,
            [.DestroyJavaVM 1, .Py_DECREF ⟨17, true⟩, .Py_DECREF ⟨14, true⟩,
              .Py_DECREF ⟨15, true⟩, .Py_DECREF ⟨17, true⟩, .Py_DECREF ⟨14, true⟩,
              .Py_DECREF ⟨15, true⟩, .Py_DECREF ⟨16, true⟩, .Py_DECREF ⟨19, true⟩,
              .Py_DECREF ⟨14, true⟩]⟩,
          { JVM := ⟨none, none, 0⟩
            JPy_JBoolean := none, JPy_JByte := none, JPy_JShort := none, JPy_JInt := none
            JPy_JLong := none, JPy_JFloat := none, JPy_JDouble := none, JPy_JChar := none
            JPy_JVoid := none, JPy_JString := some ⟨16, false⟩
            vm := sampleVMInfo }) :=
  JPy_destroy_jvm_releases startedState [] 1 ⟨17, true⟩ ⟨14, true⟩ ⟨15, true⟩ ⟨17, true⟩
    ⟨14, true⟩ ⟨15, true⟩ ⟨16, true⟩ ⟨19, true⟩ ⟨14, true⟩
    rfl rfl rfl rfl rfl rfl rfl rfl rfl rfl

/-- What a block `JPy_ConvertToWCharString` returns looks like: it was allocated
with `length` elements and holds `length + 1` stores, the code units in order
and the terminator. -/
theorem JPy_ConvertToWCharString_size (x : World) (jChars : Chars) (length : Nat) (b : WBuf)
    (h : JPy_ConvertToWCharString x jChars length = .ok (some b)) :
    b.size = length ∧ b.cells = jChars.take length ++ [0] ∧ b.cells.length = length + 1 := by
  unfold JPy_ConvertToWCharString at h
  split at h
  · simp at h
  · split at h
    · simp at h
    · split at h
      · simp at h
      · split at h
        · simp at h
        · rename_i h1 h2 h3 h4
          simp only [Except.ok.injEq, Option.some.injEq] at h
          subst h
          simp at h4
          simp [h4]

/-- C12, at the failing inputs: the empty buffer (`n = 0`) and the buffer of the
two code units `a`, `b` (`n = 2`), all allocations succeeding. The block that is
returned was allocated with `n` elements, not `n + 1`: the code units are stored
at the indices `0 .. n - 1` and the terminator at the index `n`, which is not
below the number of elements of the block. -/
theorem JPy_ConvertToWCharString_terminator_outside :
    JPy_ConvertToWCharString sampleWorld [] 0 = .ok (some ⟨0, [0]⟩) ∧
      ¬ (WBuf.mk 0 [0]).storesInBounds ∧
      JPy_ConvertToWCharString sampleWorld [97, 98] 2 = .ok (some ⟨2, [97, 98, 0]⟩) ∧
      ¬ (WBuf.mk 2 [97, 98, 0]).storesInBounds :=
  ⟨rfl, by decide, rfl, by decide⟩

/-- When `JPy_InitGlobalVars` returns, be it `0` or `-1`, the nine singletons are
in place and `JVM` is untouched. -/
theorem JPy_InitGlobalVars_ok (x : World) (s s' : JPy_State) (rc : Int) (e : Option PyErr)
    (tr : List Event) (h : JPy_InitGlobalVars x s = .ok (rc, e, s', tr)) :
    s'.JVM = s.JVM ∧ s'.singletonsSet := by
  unfold JPy_InitGlobalVars at h
  rcases h1 : JPy_GetNonObjectJType x (cstr "java/lang/Boolean") with f | ⟨t1, r1⟩
  · simp only [h1, bind, Except.bind] at h
    simp at h
  rcases h2 : JPy_GetNonObjectJType x (cstr "java/lang/Byte") with f | ⟨t2, r2⟩
  · simp only [h1, h2, bind, Except.bind] at h
    simp at h
  rcases h3 : JPy_GetNonObjectJType x (cstr "java/lang/Short") with f | ⟨t3, r3⟩
  · simp only [h1, h2, h3, bind, Except.bind] at h
    simp at h
  rcases h4 : JPy_GetNonObjectJType x (cstr "java/lang/Integer") with f | ⟨t4, r4⟩
  · simp only [h1, h2, h3, h4, bind, Except.bind] at h
    simp at h
  rcases h5 : JPy_GetNonObjectJType x (cstr "java/lang/Long") with f | ⟨t5, r5⟩
  · simp only [h1, h2, h3, h4, h5, bind, Except.bind] at h
    simp at h
  rcases h6 : JPy_GetNonObjectJType x (cstr "java/lang/Float") with f | ⟨t6, r6⟩
  · simp only [h1, h2, h3, h4, h5, h6, bind, Except.bind] at h
    simp at h
  rcases h7 : JPy_GetNonObjectJType x (cstr "java/lang/Double") with f | ⟨t7, r7⟩
  · simp only [h1, h2, h3, h4, h5, h6, h7, bind, Except.bind] at h
    simp at h
  rcases h8 : JPy_GetNonObjectJType x (cstr "java/lang/Character") with f | ⟨t8, r8⟩
  · simp only [h1, h2, h3, h4, h5, h6, h7, h8, bind, Except.bind] at h
    simp at h
  rcases h9 : JPy_GetNonObjectJType x (cstr "java/lang/Void") with f | ⟨t9, r9⟩
  · simp only [h1, h2, h3, h4, h5, h6, h7, h8, h9, bind, Except.bind] at h
    simp at h
  simp only [h1, h2, h3, h4, h5, h6, h7, h8, h9, bind, Except.bind] at h
  split at h <;>
    · simp only [pure, Except.pure, Except.ok.injEq, Prod.mk.injEq] at h
      obtain ⟨-, -, hs, -⟩ := h
      subst hs
      simp [JPy_State.singletonsSet]

/-- The ways `JPy_create_jvm` returns when it is called with `JVM.jvm` unset.
Either it fails before `JNI_CreateJavaVM` is called, and `JVM.jvm` is still
unset; or it has called `JNI_CreateJavaVM`, `JVM.jvm` is what that call stored,
and either the call reported a failure or it reported `JNI_OK` and the nine
singletons are in place (whether `JPy_InitGlobalVars` then returned `0` or
`-1`). -/
theorem JPy_create_jvm_paths (x : World) (s s' : JPy_State) (args : List PyObject)
    (kwds : List (Chars × PyObject)) (r : Ret) (h0 : s.JVM.jvm = none)
    (hc : JPy_create_jvm x s args kwds = .ok (r, s')) :
    (r.value = none ∧ r.trace = [] ∧ r.err ≠ some AlreadyRunning ∧ s'.JVM.jvm = none) ∨
      ∃ opts, s'.JVM.jvm = (x.JNI_CreateJavaVM opts).2.1 ∧
        (((x.JNI_CreateJavaVM opts).1 ≠ 0 ∧ r.value = none ∧
            r.trace = [.JNI_CreateJavaVM opts]) ∨
          ((x.JNI_CreateJavaVM opts).1 = 0 ∧ r.trace.head? = some (.JNI_CreateJavaVM opts) ∧
            s'.singletonsSet)) := by
  unfold JPy_create_jvm at hc
  simp only [h0, ne_eq, not_true_eq_false, if_false] at hc
  split at hc
  · simp only [Except.ok.injEq, Prod.mk.injEq] at hc
    obtain ⟨hr, hs⟩ := hc
    subst hr hs
    exact Or.inl ⟨rfl, rfl, by simp [AlreadyRunning], rfl⟩
  · rename_i options dbg hb
    split at hc
    · simp only [Except.ok.injEq, Prod.mk.injEq] at hc
      obtain ⟨hr, hs⟩ := hc
      subst hr hs
      exact Or.inl ⟨rfl, rfl, by simp [AlreadyRunning], by cases dbg <;> rfl⟩
    · split at hc
      · simp only [Except.ok.injEq, Prod.mk.injEq] at hc
        obtain ⟨hr, hs⟩ := hc
        subst hr hs
        exact Or.inl ⟨rfl, rfl, by simp [AlreadyRunning], by cases dbg <;> rfl⟩
      · split at hc
        · simp only [Except.ok.injEq, Prod.mk.injEq] at hc
          obtain ⟨hr, hs⟩ := hc
          subst hr hs
          exact Or.inl ⟨rfl, rfl, by simp [AlreadyRunning], by cases dbg <;> rfl⟩
        · rename_i jvmOptions ho
          refine Or.inr ⟨jvmOptions, ?_⟩
          rcases hjni : x.JNI_CreateJavaVM jvmOptions with ⟨res, jvm, jenv⟩
          simp only [hjni] at hc
          split at hc
          · rename_i hres
            simp only [Except.ok.injEq, Prod.mk.injEq] at hc
            obtain ⟨hr, hs⟩ := hc
            subst hr hs
            exact ⟨rfl, Or.inl ⟨hres, rfl, rfl⟩⟩
          · rename_i hres
            simp only [ne_eq, not_not] at hres
            split at hc
            · simp at hc
            · rename_i rc e s4 tr hinit
              have hi := JPy_InitGlobalVars_ok x _ s4 rc e tr hinit
              split at hc
              · simp only [Except.ok.injEq, Prod.mk.injEq] at hc
                obtain ⟨hr, hs⟩ := hc
                subst hr hs
                exact ⟨by rw [hi.1], Or.inr ⟨hres, rfl, hi.2⟩⟩
              · simp only [Except.ok.injEq, Prod.mk.injEq] at hc
                obtain ⟨hr, hs⟩ := hc
                subst hr hs
                exact ⟨by rw [hi.1], Or.inr ⟨hres, rfl, hi.2⟩⟩

/-- A `JPy_create_jvm` that returns `None` leaves the nine singletons in place,
which is what `JPy_destroy_jvm` needs to run to its end. -/
theorem JPy_create_jvm_success_sets_singletons (x : World) (s s' : JPy_State)
    (args : List PyObject) (kwds : List (Chars × PyObject)) (r : Ret)
    (hc : JPy_create_jvm x s args kwds = .ok (r, s')) (hv : r.value ≠ none) :
    s'.singletonsSet := by
  by_cases h0 : s.JVM.jvm = none
  · rcases JPy_create_jvm_paths x s s' args kwds r h0 hc with
      ⟨hn, -⟩ | ⟨opts, -, ⟨-, hn, -⟩ | ⟨-, -, hs⟩⟩
    · exact absurd hn hv
    · exact absurd hn hv
    · exact hs
  · rw [create_jvm_first_branch x s args kwds h0] at hc
    simp only [Except.ok.injEq, Prod.mk.injEq] at hc
    exact absurd (by rw [← hc.1]) hv

/-- In the sample runtime `create_jvm([])` succeeds from the state the module is
loaded with and leaves `startedState`. -/
theorem JPy_create_jvm_sample :
    (JPy_create_jvm sampleWorld JPy_State.init [.List []] []).map
        (fun p => (p.1.value, p.1.err, p.2))
      = .ok (some .None, none, startedState) := by
  rfl

end JPy
